import Mathlib

set_option maxRecDepth 100000

/-
Verification of the admission-webhook-runtime library (package pkg/admission).

This file is a shallow embedding, in Lean 4, of the webhook dispatch and
composition engine found in src/pkg/admission/webhook.go and
src/pkg/admission/utils.go:

* the composite (multi-) validating webhook with its fail-fast loop and the
  composite mutating webhook with its bounded convergence loop;
* the handler adapters produced by NewValidatingWebhookHandler and
  NewMutatingWebhookHandler (decode, type assertion, dispatch on operation,
  patch computation, response construction);
* the envelope handling of handleAdmission (correlation-identifier echo);
* the registration logic of RegisterValidatingWebhookWithRouter and
  RegisterMutatingWebhookWithRouter (path construction from a
  group/version/kind identity).

External collaborators (the codec, the JSON patch library, the identity
resolver of the runtime scheme) are modelled as function parameters, exactly
at the granularity at which the Go code consumes them.  Go values of type
error are modelled as String (the value of err.Error()); a Go function
returning (T, error) is modelled as returning `GoResult String T`.
-/

/-- Result of a Go computation returning a value together with an `error`:
`GoResult.error e` models a non-nil error (with message `e`), `GoResult.ok a`
models a nil error together with the payload `a`. -/
inductive GoResult (ε α : Type) where
  | error (e : ε)
  | ok (a : α)
deriving DecidableEq

/- ## Composite webhooks (multi.go part of src/pkg/admission/webhook.go) -/

/-- Error outcome of the composite mutation loop of
`MultiMutatingWebhook.MutateCreate` / `MutateUpdate`:
`convergence` models the error `potential endless mutation loop detected`
returned when the pass counter exceeds `100*len(w.webhooks)`;
`hookError e` models an error returned by one of the sub-handlers. -/
inductive MutateError (ε : Type) where
  | convergence
  | hookError (e : ε)
deriving DecidableEq

/-- Update of the per-pass change counter: models the statement
`if !reflect.DeepEqual(obj, savedObj) { count++ }` of the inner loop of
`MultiMutatingWebhook.MutateCreate` (reflect.DeepEqual is structural
equality, modelled by decidable equality on the object type). -/
def bumpCount {τ : Type} [DecidableEq τ] (obj savedObj : τ) (count : Nat) : Nat :=
  if obj = savedObj then count else count + 1

/-- One pass of the inner loop of `MultiMutatingWebhook.MutateCreate`
(src/pkg/admission/webhook.go, lines 563-573): invoke the sub-handlers in
order on the current object, bump the change counter after each invocation by
comparing against the pass-start snapshot `savedObj`, and stop the pass early
(Go `break`) as soon as the counter exceeds 1.  Returns the final object and
the final counter, or the first sub-handler error.  A sub-handler mutating
its argument in place is modelled as a function returning the new object. -/
def runPass {τ ε : Type} [DecidableEq τ] :
    List (τ → GoResult ε τ) → τ → τ → Nat → GoResult ε (τ × Nat)
  | [], _, obj, count => .ok (obj, count)
  | h :: rest, savedObj, obj, count =>
    match h obj with
    | .error e => .error e
    | .ok obj' =>
      if 1 < bumpCount obj' savedObj count then .ok (obj', bumpCount obj' savedObj count)
      else runPass rest savedObj obj' (bumpCount obj' savedObj count)

/-- Outer loop of `MultiMutatingWebhook.MutateCreate`
(src/pkg/admission/webhook.go, lines 556-579).  The Go loop
`for i := 0; ; i++ { if i > 100*len(w.webhooks) { return error } ... }` is
translated fuel-style: `fuel = 100*len(w.webhooks) + 1 - i`, so the guard
`i > 100*len(w.webhooks)` fires exactly when `fuel = 0`.  The second
component of the result counts the passes (executions of the inner loop)
that were performed. -/
def mutateCreateGo {τ ε : Type} [DecidableEq τ] (hooks : List (τ → GoResult ε τ)) :
    Nat → τ → GoResult (MutateError ε) τ × Nat
  | 0, _ => (.error .convergence, 0)
  | fuel + 1, obj =>
    match runPass hooks obj obj 0 with
    | .error e => (.error (.hookError e), 1)
    | .ok (obj', count) =>
      if count ≤ 1 then (.ok obj', 1)
      else
        let r := mutateCreateGo hooks fuel obj'
        (r.1, r.2 + 1)

/-- Embedding of `MultiMutatingWebhook.MutateCreate`
(src/pkg/admission/webhook.go, lines 556-579), instrumented with the number
of passes executed. -/
def MultiMutateCreate {τ ε : Type} [DecidableEq τ]
    (hooks : List (τ → GoResult ε τ)) (obj : τ) : GoResult (MutateError ε) τ × Nat :=
  mutateCreateGo hooks (100 * hooks.length + 1) obj

/-- One pass of the inner loop of `MultiMutatingWebhook.MutateUpdate`
(src/pkg/admission/webhook.go, lines 588-598); identical to `runPass` except
that each sub-handler also receives the (never mutated) old object. -/
def runPassUpd {τ ε : Type} [DecidableEq τ] :
    List (τ → τ → GoResult ε τ) → τ → τ → τ → Nat → GoResult ε (τ × Nat)
  | [], _, _, obj, count => .ok (obj, count)
  | h :: rest, oldObj, savedObj, obj, count =>
    match h oldObj obj with
    | .error e => .error e
    | .ok obj' =>
      if 1 < bumpCount obj' savedObj count then .ok (obj', bumpCount obj' savedObj count)
      else runPassUpd rest oldObj savedObj obj' (bumpCount obj' savedObj count)

/-- Outer loop of `MultiMutatingWebhook.MutateUpdate`
(src/pkg/admission/webhook.go, lines 581-604), translated like
`mutateCreateGo`. -/
def mutateUpdateGo {τ ε : Type} [DecidableEq τ] (hooks : List (τ → τ → GoResult ε τ))
    (oldObj : τ) : Nat → τ → GoResult (MutateError ε) τ × Nat
  | 0, _ => (.error .convergence, 0)
  | fuel + 1, newObj =>
    match runPassUpd hooks oldObj newObj newObj 0 with
    | .error e => (.error (.hookError e), 1)
    | .ok (obj', count) =>
      if count ≤ 1 then (.ok obj', 1)
      else
        let r := mutateUpdateGo hooks oldObj fuel obj'
        (r.1, r.2 + 1)

/-- Embedding of `MultiMutatingWebhook.MutateUpdate`
(src/pkg/admission/webhook.go, lines 581-604), instrumented with the number
of passes executed. -/
def MultiMutateUpdate {τ ε : Type} [DecidableEq τ]
    (hooks : List (τ → τ → GoResult ε τ)) (oldObj newObj : τ) :
    GoResult (MutateError ε) τ × Nat :=
  mutateUpdateGo hooks oldObj (100 * hooks.length + 1) newObj

/-- Embedding of `MultiValidatingWebhook.ValidateCreate`
(src/pkg/admission/webhook.go, lines 517-524): invoke the sub-handlers in
order and return the first error; a sub-handler returning `none` models a
nil error. -/
def MultiValidateCreate {τ ε : Type} : List (τ → Option ε) → τ → Option ε
  | [], _ => none
  | h :: rest, obj =>
    match h obj with
    | some e => some e
    | none => MultiValidateCreate rest obj

/-- The loop of `MultiValidatingWebhook.ValidateCreate`, instrumented with
the number of sub-handlers that were invoked. -/
def MultiValidateCreateRun {τ ε : Type} : List (τ → Option ε) → τ → Option ε × Nat
  | [], _ => (none, 0)
  | h :: rest, obj =>
    match h obj with
    | some e => (some e, 1)
    | none =>
      let r := MultiValidateCreateRun rest obj
      (r.1, r.2 + 1)

/-- Embedding of `MultiValidatingWebhook.ValidateUpdate`
(src/pkg/admission/webhook.go, lines 526-533). -/
def MultiValidateUpdate {τ ε : Type} : List (τ → τ → Option ε) → τ → τ → Option ε
  | [], _, _ => none
  | h :: rest, oldObj, newObj =>
    match h oldObj newObj with
    | some e => some e
    | none => MultiValidateUpdate rest oldObj newObj

/-- The loop of `MultiValidatingWebhook.ValidateUpdate`, instrumented with
the number of sub-handlers that were invoked. -/
def MultiValidateUpdateRun {τ ε : Type} : List (τ → τ → Option ε) → τ → τ → Option ε × Nat
  | [], _, _ => (none, 0)
  | h :: rest, oldObj, newObj =>
    match h oldObj newObj with
    | some e => (some e, 1)
    | none =>
      let r := MultiValidateUpdateRun rest oldObj newObj
      (r.1, r.2 + 1)

/-- Embedding of `MultiValidatingWebhook.ValidateDelete`
(src/pkg/admission/webhook.go, lines 535-542). -/
def MultiValidateDelete {τ ε : Type} : List (τ → Option ε) → τ → Option ε
  | [], _ => none
  | h :: rest, obj =>
    match h obj with
    | some e => some e
    | none => MultiValidateDelete rest obj

/-- The loop of `MultiValidatingWebhook.ValidateDelete`, instrumented with
the number of sub-handlers that were invoked. -/
def MultiValidateDeleteRun {τ ε : Type} : List (τ → Option ε) → τ → Option ε × Nat
  | [], _ => (none, 0)
  | h :: rest, obj =>
    match h obj with
    | some e => (some e, 1)
    | none =>
      let r := MultiValidateDeleteRun rest obj
      (r.1, r.2 + 1)

/- ### Concrete sub-handlers used in counterexamples and witnesses -/

/-- Mutation sub-handler that flips a boolean object. -/
def notHook : Bool → GoResult String Bool := fun b => .ok (!b)

/-- Mutation sub-handler that leaves the object unchanged. -/
def idHook : Bool → GoResult String Bool := fun b => .ok b

/-- Mutation sub-handler that sets the boolean object to `true`. -/
def setTrueHook : Bool → GoResult String Bool := fun _ => .ok true

/-- Update-mutation sub-handler that flips the new object. -/
def notHookUpd : Bool → Bool → GoResult String Bool := fun _ b => .ok (!b)

/-- Update-mutation sub-handler that leaves the new object unchanged. -/
def idHookUpd : Bool → Bool → GoResult String Bool := fun _ b => .ok b

/-- Update-mutation sub-handler that sets the new object to `true`. -/
def setTrueHookUpd : Bool → Bool → GoResult String Bool := fun _ _ => .ok true

/- ## Lemmas about the composite mutation loop -/

/-- If every pass over the sub-handler chain ends with the change counter
above 1, each round of the outer loop consumes one unit of fuel, so the loop
runs out of fuel and reports the convergence error, having executed exactly
`fuel` passes. -/
lemma mutateCreateGo_diverges {τ ε : Type} [DecidableEq τ]
    (hooks : List (τ → GoResult ε τ))
    (h : ∀ obj, ∃ p : τ × Nat, runPass hooks obj obj 0 = .ok p ∧ 1 < p.2) :
    ∀ fuel obj, mutateCreateGo hooks fuel obj = (.error .convergence, fuel) := by
  intro fuel
  induction fuel with
  | zero => intro obj; rfl
  | succ n ih =>
    intro obj
    obtain ⟨⟨o', c⟩, hp, hc⟩ := h obj
    simp only [mutateCreateGo, hp]
    rw [if_neg (by omega)]
    simp only [ih o']

/-- The update pass is the create pass with the old object pre-applied to
each sub-handler. -/
lemma runPassUpd_eq_runPass {τ ε : Type} [DecidableEq τ]
    (hooks : List (τ → τ → GoResult ε τ)) (oldObj : τ) :
    ∀ savedObj obj count, runPassUpd hooks oldObj savedObj obj count =
      runPass (hooks.map fun h x => h oldObj x) savedObj obj count := by
  induction hooks with
  | nil => intro s o c; rfl
  | cons h t ih =>
    intro s o c
    cases hres : h oldObj o with
    | error e => simp only [runPassUpd, List.map_cons, runPass, hres]
    | ok o' => simp only [runPassUpd, List.map_cons, runPass, hres, ih]

/-- The update outer loop is the create outer loop with the old object
pre-applied to each sub-handler. -/
lemma mutateUpdateGo_eq_mutateCreateGo {τ ε : Type} [DecidableEq τ]
    (hooks : List (τ → τ → GoResult ε τ)) (oldObj : τ) :
    ∀ fuel obj, mutateUpdateGo hooks oldObj fuel obj =
      mutateCreateGo (hooks.map fun h x => h oldObj x) fuel obj := by
  intro fuel
  induction fuel with
  | zero => intro obj; rfl
  | succ n ih =>
    intro obj
    simp only [mutateUpdateGo, mutateCreateGo, runPassUpd_eq_runPass, ih]

/-- `MultiMutateUpdate` reduces to `MultiMutateCreate` on the pre-applied
sub-handler chain. -/
lemma multiMutateUpdate_eq_create {τ ε : Type} [DecidableEq τ]
    (hooks : List (τ → τ → GoResult ε τ)) (oldObj newObj : τ) :
    MultiMutateUpdate hooks oldObj newObj =
      MultiMutateCreate (hooks.map fun h x => h oldObj x) newObj := by
  simp only [MultiMutateUpdate, MultiMutateCreate, mutateUpdateGo_eq_mutateCreateGo,
    List.length_map]

/-- A pass over a chain whose sub-handlers are all no-ops except possibly the
last one ends with the change counter at most 1 (and with no error when the
last sub-handler returns no error). -/
lemma runPass_noops_then_last {τ ε : Type} [DecidableEq τ] (h : τ → GoResult ε τ)
    (hh : ∀ x, ∃ y, h x = .ok y) :
    ∀ pre : List (τ → GoResult ε τ), (∀ g ∈ pre, ∀ x, g x = .ok x) →
      ∀ s, ∃ y c, runPass (pre ++ [h]) s s 0 = .ok (y, c) ∧ c ≤ 1 := by
  intro pre
  induction pre with
  | nil =>
    intro _ s
    obtain ⟨y, hy⟩ := hh s
    refine ⟨y, bumpCount y s 0, ?_, ?_⟩
    · simp only [List.nil_append, runPass, hy]
      split <;> rfl
    · unfold bumpCount; split <;> omega
  | cons g t ih =>
    intro hpre s
    have hg : g s = .ok s := hpre g (by simp) s
    obtain ⟨y, c, hrec, hc⟩ := ih (fun g' hg' => hpre g' (by simp [hg'])) s
    refine ⟨y, c, ?_, hc⟩
    simp only [List.cons_append, runPass, hg]
    have hb : bumpCount s s 0 = 0 := by simp [bumpCount]
    rw [hb]
    simpa using hrec

/-- If all sub-handlers before the last are no-ops and the last returns no
error, `MultiMutateCreate` succeeds after exactly one pass. -/
lemma multiMutateCreate_noops_then_last {τ ε : Type} [DecidableEq τ]
    (pre : List (τ → GoResult ε τ)) (h : τ → GoResult ε τ)
    (hpre : ∀ g ∈ pre, ∀ x, g x = .ok x) (hlast : ∀ x, ∃ y, h x = .ok y) (obj : τ) :
    ∃ y, MultiMutateCreate (pre ++ [h]) obj = (.ok y, 1) := by
  obtain ⟨y, c, hrun, hc⟩ := runPass_noops_then_last h hlast pre hpre obj
  refine ⟨y, ?_⟩
  simp only [MultiMutateCreate, mutateCreateGo, hrun]
  rw [if_pos hc]

/- ## Claim C1 -/

/-- Claim C1 as stated is false at a concrete input: for the two-handler
chain `[notHook, idHook]`, whose passes perpetually flip the boolean object
(so every pass ends with the change counter at 2), `MutateCreate` does
terminate with the convergence error, but it executes 201 passes, which is
not `100 × handler_count = 200` (and in particular is more than that
bound). -/
theorem claim1_counterexample :
    MultiMutateCreate [notHook, idHook] false = (.error .convergence, 201) ∧
    (MultiMutateCreate [notHook, idHook] false).2 ≠ 100 * [notHook, idHook].length := by
  decide

/-- Claim C1 (amended): for every composite mutation chain (MutateCreate /
MutateUpdate) whose sub-handlers perpetually alternate the object so that no
pass ends with the change counter at most 1 (and no sub-handler errors), the
loop terminates with the convergence error, and the number of passes
executed before failing is exactly `100 × handler_count + 1`, never more. -/
theorem claim1_convergence_failure_bound {τ ε : Type} [DecidableEq τ]
    (hooksC : List (τ → GoResult ε τ)) (hooksU : List (τ → τ → GoResult ε τ)) (oldObj : τ)
    (hC : ∀ obj, ∃ p : τ × Nat, runPass hooksC obj obj 0 = .ok p ∧ 1 < p.2)
    (hU : ∀ obj, ∃ p : τ × Nat, runPassUpd hooksU oldObj obj obj 0 = .ok p ∧ 1 < p.2)
    (obj : τ) :
    MultiMutateCreate hooksC obj = (.error .convergence, 100 * hooksC.length + 1) ∧
    MultiMutateUpdate hooksU oldObj obj = (.error .convergence, 100 * hooksU.length + 1) := by
  constructor
  · exact mutateCreateGo_diverges hooksC hC _ obj
  · have hU' : ∀ o, ∃ p : τ × Nat,
        runPass (hooksU.map fun h x => h oldObj x) o o 0 = .ok p ∧ 1 < p.2 := by
      intro o
      obtain ⟨p, hp, hc⟩ := hU o
      exact ⟨p, by rw [← runPassUpd_eq_runPass]; exact hp, hc⟩
    rw [multiMutateUpdate_eq_create, MultiMutateCreate, List.length_map]
    exact mutateCreateGo_diverges _ hU' _ obj

/-- Witness for claim C1: the amended bound applied to the concrete chains
`[notHook, idHook]` (create) and `[notHookUpd, idHookUpd]` (update). -/
theorem claim1_convergence_failure_bound_witness :
    MultiMutateCreate [notHook, idHook] true =
      (.error .convergence, 100 * [notHook, idHook].length + 1) ∧
    MultiMutateUpdate [notHookUpd, idHookUpd] false true =
      (.error .convergence, 100 * [notHookUpd, idHookUpd].length + 1) :=
  claim1_convergence_failure_bound [notHook, idHook] [notHookUpd, idHookUpd] false
    (by
      intro obj
      cases obj with
      | false => exact ⟨(true, 2), by decide, by decide⟩
      | true => exact ⟨(false, 2), by decide, by decide⟩)
    (by
      intro obj
      cases obj with
      | false => exact ⟨(true, 2), by decide, by decide⟩
      | true => exact ⟨(false, 2), by decide, by decide⟩)
    true

/- ## Claim C2 -/

/-- Claim C2 as stated is false at a concrete input: in the chain
`[setTrueHook, idHook]` starting from `false`, only `setTrueHook` ever
changes the object and no sub-handler errors, yet the loop needs 2 passes,
not 1: in the first pass the comparison of the object against the pass-start
snapshot also counts the unchanged result of `idHook` as a change, driving
the per-pass counter to 2. -/
theorem claim2_counterexample :
    MultiMutateCreate [setTrueHook, idHook] false = (.ok true, 2) ∧ (2 : Nat) ≠ 1 := by
  decide

/-- Claim C2 (amended): for every composite mutation chain in which exactly
one sub-handler ever changes the object (all sub-handlers returning no
error), and in which that changing sub-handler is the last of the chain,
`MutateCreate` / `MutateUpdate` terminates successfully after exactly one
pass.  (When the changing sub-handler is not last, the pass-start-snapshot
comparison also counts every later sub-handler as a change, forcing at least
a second pass, as the counterexample shows.) -/
theorem claim2_single_changer_last_one_pass {τ ε : Type} [DecidableEq τ]
    (pre : List (τ → GoResult ε τ)) (h : τ → GoResult ε τ)
    (preU : List (τ → τ → GoResult ε τ)) (hU : τ → τ → GoResult ε τ) (oldObj : τ)
    (hpre : ∀ g ∈ pre, ∀ x, g x = .ok x)
    (hlast : ∀ x, ∃ y, h x = .ok y)
    (hpreU : ∀ g ∈ preU, ∀ x, g oldObj x = .ok x)
    (hlastU : ∀ x, ∃ y, hU oldObj x = .ok y)
    (obj : τ) :
    (∃ y, MultiMutateCreate (pre ++ [h]) obj = (.ok y, 1)) ∧
    (∃ y, MultiMutateUpdate (preU ++ [hU]) oldObj obj = (.ok y, 1)) := by
  constructor
  · exact multiMutateCreate_noops_then_last pre h hpre hlast obj
  · rw [multiMutateUpdate_eq_create]
    simp only [List.map_append, List.map_cons, List.map_nil]
    refine multiMutateCreate_noops_then_last _ _ ?_ ?_ obj
    · intro g hg x
      obtain ⟨g₀, hg₀, rfl⟩ := List.mem_map.mp hg
      exact hpreU g₀ hg₀ x
    · intro x
      exact hlastU x

/-- Witness for claim C2: the one-pass result applied to the concrete chains
`[idHook, setTrueHook]` (create) and `[idHookUpd, setTrueHookUpd]`
(update), where only the last sub-handler changes the object. -/
theorem claim2_single_changer_last_one_pass_witness :
    (∃ y, MultiMutateCreate ([idHook] ++ [setTrueHook]) false = (.ok y, 1)) ∧
    (∃ y, MultiMutateUpdate ([idHookUpd] ++ [setTrueHookUpd]) false false = (.ok y, 1)) :=
  claim2_single_changer_last_one_pass [idHook] setTrueHook [idHookUpd] setTrueHookUpd false
    (by intro g hg x; simp only [List.mem_singleton] at hg; subst hg; rfl)
    (fun x => ⟨true, rfl⟩)
    (by intro g hg x; simp only [List.mem_singleton] at hg; subst hg; rfl)
    (fun x => ⟨true, rfl⟩)
    false

/- ## Lemmas about the composite validation loops -/

/-- The instrumented create-validation loop returns the uninstrumented
result in its first component. -/
lemma multiValidateCreateRun_fst {τ ε : Type} :
    ∀ (hooks : List (τ → Option ε)) (obj : τ),
      MultiValidateCreate hooks obj = (MultiValidateCreateRun hooks obj).1 := by
  intro hooks
  induction hooks with
  | nil => intro obj; rfl
  | cons h t ih =>
    intro obj
    cases hres : h obj with
    | some e => simp only [MultiValidateCreate, MultiValidateCreateRun, hres]
    | none => simp only [MultiValidateCreate, MultiValidateCreateRun, hres, ih]

/-- If the first erroring sub-handler of the create-validation chain sits at
index `k`, the loop returns its error and invokes exactly `k + 1`
sub-handlers. -/
lemma multiValidateCreateRun_firstError {τ ε : Type} :
    ∀ (hooks : List (τ → Option ε)) (obj : τ) (k : Nat) (h : τ → Option ε) (e : ε),
      hooks.get? k = some h → h obj = some e →
      (∀ j, j < k → ∀ g, hooks.get? j = some g → g obj = none) →
      MultiValidateCreateRun hooks obj = (some e, k + 1) := by
  intro hooks
  induction hooks with
  | nil => intro obj k h e hk; simp [List.get?] at hk
  | cons g t ih =>
    intro obj k h e hk he hprev
    cases k with
    | zero =>
      simp only [List.get?, Option.some.injEq] at hk
      subst hk
      simp only [MultiValidateCreateRun, he]
    | succ k' =>
      have hg : g obj = none := hprev 0 (Nat.succ_pos k') g rfl
      have hrec := ih obj k' h e (by simpa using hk) he
        (fun j hj g' hg' => hprev (j + 1) (by omega) g' (by simpa using hg'))
      simp only [MultiValidateCreateRun, hg, hrec]

/-- If no sub-handler of the create-validation chain errors, the loop
returns no error and invokes every sub-handler. -/
lemma multiValidateCreateRun_noError {τ ε : Type} :
    ∀ (hooks : List (τ → Option ε)) (obj : τ), (∀ g ∈ hooks, g obj = none) →
      MultiValidateCreateRun hooks obj = (none, hooks.length) := by
  intro hooks
  induction hooks with
  | nil => intro obj _; rfl
  | cons g t ih =>
    intro obj hall
    have hg : g obj = none := hall g (by simp)
    have hrec := ih obj (fun g' hg' => hall g' (by simp [hg']))
    simp only [MultiValidateCreateRun, hg, hrec, List.length_cons]

/-- The instrumented update-validation loop returns the uninstrumented
result in its first component. -/
lemma multiValidateUpdateRun_fst {τ ε : Type} :
    ∀ (hooks : List (τ → τ → Option ε)) (oldObj newObj : τ),
      MultiValidateUpdate hooks oldObj newObj =
        (MultiValidateUpdateRun hooks oldObj newObj).1 := by
  intro hooks
  induction hooks with
  | nil => intro oldObj newObj; rfl
  | cons h t ih =>
    intro oldObj newObj
    cases hres : h oldObj newObj with
    | some e => simp only [MultiValidateUpdate, MultiValidateUpdateRun, hres]
    | none => simp only [MultiValidateUpdate, MultiValidateUpdateRun, hres, ih]

/-- If the first erroring sub-handler of the update-validation chain sits at
index `k`, the loop returns its error and invokes exactly `k + 1`
sub-handlers. -/
lemma multiValidateUpdateRun_firstError {τ ε : Type} :
    ∀ (hooks : List (τ → τ → Option ε)) (oldObj newObj : τ) (k : Nat)
      (h : τ → τ → Option ε) (e : ε),
      hooks.get? k = some h → h oldObj newObj = some e →
      (∀ j, j < k → ∀ g, hooks.get? j = some g → g oldObj newObj = none) →
      MultiValidateUpdateRun hooks oldObj newObj = (some e, k + 1) := by
  intro hooks
  induction hooks with
  | nil => intro oldObj newObj k h e hk; simp [List.get?] at hk
  | cons g t ih =>
    intro oldObj newObj k h e hk he hprev
    cases k with
    | zero =>
      simp only [List.get?, Option.some.injEq] at hk
      subst hk
      simp only [MultiValidateUpdateRun, he]
    | succ k' =>
      have hg : g oldObj newObj = none := hprev 0 (Nat.succ_pos k') g rfl
      have hrec := ih oldObj newObj k' h e (by simpa using hk) he
        (fun j hj g' hg' => hprev (j + 1) (by omega) g' (by simpa using hg'))
      simp only [MultiValidateUpdateRun, hg, hrec]

/-- If no sub-handler of the update-validation chain errors, the loop
returns no error and invokes every sub-handler. -/
lemma multiValidateUpdateRun_noError {τ ε : Type} :
    ∀ (hooks : List (τ → τ → Option ε)) (oldObj newObj : τ),
      (∀ g ∈ hooks, g oldObj newObj = none) →
      MultiValidateUpdateRun hooks oldObj newObj = (none, hooks.length) := by
  intro hooks
  induction hooks with
  | nil => intro oldObj newObj _; rfl
  | cons g t ih =>
    intro oldObj newObj hall
    have hg : g oldObj newObj = none := hall g (by simp)
    have hrec := ih oldObj newObj (fun g' hg' => hall g' (by simp [hg']))
    simp only [MultiValidateUpdateRun, hg, hrec, List.length_cons]

/-- The instrumented delete-validation loop returns the uninstrumented
result in its first component. -/
lemma multiValidateDeleteRun_fst {τ ε : Type} :
    ∀ (hooks : List (τ → Option ε)) (obj : τ),
      MultiValidateDelete hooks obj = (MultiValidateDeleteRun hooks obj).1 := by
  intro hooks
  induction hooks with
  | nil => intro obj; rfl
  | cons h t ih =>
    intro obj
    cases hres : h obj with
    | some e => simp only [MultiValidateDelete, MultiValidateDeleteRun, hres]
    | none => simp only [MultiValidateDelete, MultiValidateDeleteRun, hres, ih]

/-- If the first erroring sub-handler of the delete-validation chain sits at
index `k`, the loop returns its error and invokes exactly `k + 1`
sub-handlers. -/
lemma multiValidateDeleteRun_firstError {τ ε : Type} :
    ∀ (hooks : List (τ → Option ε)) (obj : τ) (k : Nat) (h : τ → Option ε) (e : ε),
      hooks.get? k = some h → h obj = some e →
      (∀ j, j < k → ∀ g, hooks.get? j = some g → g obj = none) →
      MultiValidateDeleteRun hooks obj = (some e, k + 1) := by
  intro hooks
  induction hooks with
  | nil => intro obj k h e hk; simp [List.get?] at hk
  | cons g t ih =>
    intro obj k h e hk he hprev
    cases k with
    | zero =>
      simp only [List.get?, Option.some.injEq] at hk
      subst hk
      simp only [MultiValidateDeleteRun, he]
    | succ k' =>
      have hg : g obj = none := hprev 0 (Nat.succ_pos k') g rfl
      have hrec := ih obj k' h e (by simpa using hk) he
        (fun j hj g' hg' => hprev (j + 1) (by omega) g' (by simpa using hg'))
      simp only [MultiValidateDeleteRun, hg, hrec]

/-- If no sub-handler of the delete-validation chain errors, the loop
returns no error and invokes every sub-handler. -/
lemma multiValidateDeleteRun_noError {τ ε : Type} :
    ∀ (hooks : List (τ → Option ε)) (obj : τ), (∀ g ∈ hooks, g obj = none) →
      MultiValidateDeleteRun hooks obj = (none, hooks.length) := by
  intro hooks
  induction hooks with
  | nil => intro obj _; rfl
  | cons g t ih =>
    intro obj hall
    have hg : g obj = none := hall g (by simp)
    have hrec := ih obj (fun g' hg' => hall g' (by simp [hg']))
    simp only [MultiValidateDeleteRun, hg, hrec, List.length_cons]

/- ## Claim C3 -/

/-- Claim C3: for every composite validation chain (ValidateCreate /
ValidateUpdate / ValidateDelete) and every input, the composite's returned
error equals the error of the first sub-handler, in registration order, that
returns an error, and exactly the sub-handlers up to and including that one
are invoked (so none after it); if no sub-handler errors, the composite
returns no error, having invoked all sub-handlers. -/
theorem claim3_validation_fail_fast {τ ε : Type} :
    (∀ (hooks : List (τ → Option ε)) (obj : τ) (k : Nat) (h : τ → Option ε) (e : ε),
        hooks.get? k = some h → h obj = some e →
        (∀ j, j < k → ∀ g, hooks.get? j = some g → g obj = none) →
        MultiValidateCreate hooks obj = some e ∧
          MultiValidateCreateRun hooks obj = (some e, k + 1)) ∧
    (∀ (hooks : List (τ → Option ε)) (obj : τ), (∀ g ∈ hooks, g obj = none) →
        MultiValidateCreate hooks obj = none ∧
          MultiValidateCreateRun hooks obj = (none, hooks.length)) ∧
    (∀ (hooks : List (τ → τ → Option ε)) (oldObj newObj : τ) (k : Nat)
        (h : τ → τ → Option ε) (e : ε),
        hooks.get? k = some h → h oldObj newObj = some e →
        (∀ j, j < k → ∀ g, hooks.get? j = some g → g oldObj newObj = none) →
        MultiValidateUpdate hooks oldObj newObj = some e ∧
          MultiValidateUpdateRun hooks oldObj newObj = (some e, k + 1)) ∧
    (∀ (hooks : List (τ → τ → Option ε)) (oldObj newObj : τ),
        (∀ g ∈ hooks, g oldObj newObj = none) →
        MultiValidateUpdate hooks oldObj newObj = none ∧
          MultiValidateUpdateRun hooks oldObj newObj = (none, hooks.length)) ∧
    (∀ (hooks : List (τ → Option ε)) (obj : τ) (k : Nat) (h : τ → Option ε) (e : ε),
        hooks.get? k = some h → h obj = some e →
        (∀ j, j < k → ∀ g, hooks.get? j = some g → g obj = none) →
        MultiValidateDelete hooks obj = some e ∧
          MultiValidateDeleteRun hooks obj = (some e, k + 1)) ∧
    (∀ (hooks : List (τ → Option ε)) (obj : τ), (∀ g ∈ hooks, g obj = none) →
        MultiValidateDelete hooks obj = none ∧
          MultiValidateDeleteRun hooks obj = (none, hooks.length)) := by
  refine ⟨?_, ?_, ?_, ?_, ?_, ?_⟩
  · intro hooks obj k h e hk he hprev
    have hrun := multiValidateCreateRun_firstError hooks obj k h e hk he hprev
    exact ⟨by rw [multiValidateCreateRun_fst, hrun], hrun⟩
  · intro hooks obj hall
    have hrun := multiValidateCreateRun_noError hooks obj hall
    exact ⟨by rw [multiValidateCreateRun_fst, hrun], hrun⟩
  · intro hooks oldObj newObj k h e hk he hprev
    have hrun := multiValidateUpdateRun_firstError hooks oldObj newObj k h e hk he hprev
    exact ⟨by rw [multiValidateUpdateRun_fst, hrun], hrun⟩
  · intro hooks oldObj newObj hall
    have hrun := multiValidateUpdateRun_noError hooks oldObj newObj hall
    exact ⟨by rw [multiValidateUpdateRun_fst, hrun], hrun⟩
  · intro hooks obj k h e hk he hprev
    have hrun := multiValidateDeleteRun_firstError hooks obj k h e hk he hprev
    exact ⟨by rw [multiValidateDeleteRun_fst, hrun], hrun⟩
  · intro hooks obj hall
    have hrun := multiValidateDeleteRun_noError hooks obj hall
    exact ⟨by rw [multiValidateDeleteRun_fst, hrun], hrun⟩

/-- Error message of the first failing concrete validator. -/
def err1 : String := "first failure"

/-- Error message of the second failing concrete validator. -/
def err2 : String := "second failure"

/-- Concrete validation sub-handler that accepts every object. -/
def vNone : Nat → Option String := fun _ => none

/-- Concrete validation sub-handler that rejects with `err1`. -/
def vErr1 : Nat → Option String := fun _ => some err1

/-- Concrete validation sub-handler that rejects with `err2`. -/
def vErr2 : Nat → Option String := fun _ => some err2

/-- Concrete update-validation sub-handler that accepts everything. -/
def vNoneUpd : Nat → Nat → Option String := fun _ _ => none

/-- Concrete update-validation sub-handler that rejects with `err1`. -/
def vErr1Upd : Nat → Nat → Option String := fun _ _ => some err1

/-- Witness for claim C3: concrete chains in which the first error (at
index 1, at index 1, and at index 0 respectively) short-circuits the loop,
plus a chain with no error. -/
theorem claim3_validation_fail_fast_witness :
    (MultiValidateCreate [vNone, vErr1, vErr2] 0 = some err1 ∧
      MultiValidateCreateRun [vNone, vErr1, vErr2] 0 = (some err1, 2)) ∧
    (MultiValidateUpdate [vNoneUpd, vErr1Upd] 0 1 = some err1 ∧
      MultiValidateUpdateRun [vNoneUpd, vErr1Upd] 0 1 = (some err1, 2)) ∧
    (MultiValidateDelete [vErr1, vErr2] 5 = some err1 ∧
      MultiValidateDeleteRun [vErr1, vErr2] 5 = (some err1, 1)) ∧
    (MultiValidateCreate [vNone] 0 = none ∧
      MultiValidateCreateRun [vNone] 0 = (none, 1)) := by
  refine ⟨?_, ?_, ?_, ?_⟩
  · exact claim3_validation_fail_fast.1 [vNone, vErr1, vErr2] 0 1 vErr1 err1 rfl rfl
      (by
        intro j hj g hg
        have hj0 : j = 0 := by omega
        subst hj0
        simp only [List.get?, Option.some.injEq] at hg
        subst hg
        rfl)
  · exact claim3_validation_fail_fast.2.2.1 [vNoneUpd, vErr1Upd] 0 1 1 vErr1Upd err1 rfl rfl
      (by
        intro j hj g hg
        have hj0 : j = 0 := by omega
        subst hj0
        simp only [List.get?, Option.some.injEq] at hg
        subst hg
        rfl)
  · exact claim3_validation_fail_fast.2.2.2.2.1 [vErr1, vErr2] 5 0 vErr1 err1 rfl rfl
      (fun j hj => absurd hj (Nat.not_lt_zero j))
  · exact claim3_validation_fail_fast.2.1 [vNone] 0
      (by intro g hg; simp only [List.mem_singleton] at hg; subst hg; rfl)

/- ## Admission data model and handler adapters
(NewValidatingWebhookHandler / NewMutatingWebhookHandler in
src/pkg/admission/webhook.go, toAdmissionError in
src/pkg/admission/utils.go).

Raw byte payloads are modelled as lists over an abstract byte type `β`; the
codec (Decode) is a parameter `decoder : List β → GoResult String γ` into a
universe `γ` of decoded objects, and the Go type assertion `object.(T)` is a
parameter `assertT : γ → Option τ`.  The patch operations produced by
`jsonpatch.CreatePatch` are modelled as an abstract type `π`.  The admit
functions are instrumented with a second result component counting how many
handler methods (ValidateCreate/ValidateUpdate/ValidateDelete/MutateCreate/
MutateUpdate) were invoked. -/

/-- Admission operation (admissionv1.Operation); `connect` stands for any
operation the Go switch statements have no case for. -/
inductive Operation where
  | create
  | update
  | delete
  | connect
deriving DecidableEq

/-- Embedding of the fields of admissionv1.AdmissionRequest the adapters
read: UID, operation, and the raw object / old-object payloads. -/
structure AdmissionRequest (β : Type) where
  uid : String
  operation : Operation
  objectRaw : List β
  oldObjectRaw : List β
deriving DecidableEq

/-- Embedding of metav1.Status as populated by toAdmissionError. -/
structure AdmissionStatus where
  code : Int
  reason : String
  message : String
deriving DecidableEq

/-- Patch type of the admission response; the only value used by the code is
admissionv1.PatchTypeJSONPatch. -/
inductive PatchType where
  | jsonPatch
deriving DecidableEq

/-- Embedding of admissionv1.AdmissionResponse: the patch payload is kept as
the list of patch operations (the Go code stores their JSON encoding). -/
structure AdmissionResponse (π : Type) where
  uid : String
  allowed : Bool
  result : Option AdmissionStatus
  patchType : Option PatchType
  patch : Option (List π)
deriving DecidableEq

/-- Model of Go's http.StatusText, restricted to the status codes the
admission package uses. -/
def statusText (code : Int) : String :=
  if code = 400 then "Bad Request"
  else if code = 403 then "Forbidden"
  else if code = 415 then "Unsupported Media Type"
  else if code = 500 then "Internal Server Error"
  else ""

/-- Embedding of toAdmissionError (src/pkg/admission/utils.go, lines 16-25):
a denial response whose status carries the code, the code's standard reason
text, and the error message.  The UID is the Go zero value; handleAdmission
overwrites it. -/
def toAdmissionError {π : Type} (code : Int) (err : String) : AdmissionResponse π :=
  { uid := ""
    allowed := false
    result := some { code := code, reason := statusText code, message := err }
    patchType := none
    patch := none }

/-- The bare allow response `&admissionv1.AdmissionResponse{Allowed: true}`
returned by the adapters when nothing is denied and no patch is needed. -/
def allowResponse {π : Type} : AdmissionResponse π :=
  { uid := "", allowed := true, result := none, patchType := none, patch := none }

/-- Decoding of one raw payload field by the adapters
(src/pkg/admission/webhook.go, lines 84-104 and 214-234): when the payload
is non-empty, decode it and type-assert the result, turning either failure
into a 400 denial; when it is empty, fall through to the Go zero value
`defaultT`. -/
def decodeField {β γ τ π : Type} (decoder : List β → GoResult String γ)
    (assertT : γ → Option τ) (defaultT : τ) (raw : List β) (what : String) :
    GoResult (AdmissionResponse π) τ :=
  if 0 < raw.length then
    match decoder raw with
    | .error e =>
      .error (toAdmissionError 400 ("error decoding " ++ what ++ " from admission request: " ++ e))
    | .ok g =>
      match assertT g with
      | some t => .ok t
      | none => .error (toAdmissionError 400 ("error converting " ++ what ++ " from admission request"))
  else .ok defaultT

/-- The two sequential decode blocks of the adapters: object first, then old
object, each returning early with a 400 denial on failure. -/
def decodePair {β γ τ π : Type} (decoder : List β → GoResult String γ)
    (assertT : γ → Option τ) (defaultT : τ) (req : AdmissionRequest β) :
    GoResult (AdmissionResponse π) (τ × τ) :=
  match decodeField decoder assertT defaultT req.objectRaw ("object") with
  | .error r => .error r
  | .ok obj =>
    match decodeField decoder assertT defaultT req.oldObjectRaw ("old object") with
    | .error r => .error r
    | .ok oldObj => .ok (obj, oldObj)

/-- The three methods of a ValidatingWebhook implementation; a returned
`some e` models a non-nil error with message `e`. -/
structure ValidatingHooks (τ : Type) where
  validateCreate : τ → Option String
  validateUpdate : τ → τ → Option String
  validateDelete : τ → Option String

/-- The operation switch of the validating adapter
(src/pkg/admission/webhook.go, lines 106-122): Create and Update dispatch on
the decoded new object (plus the old one for Update); Delete dispatches
ValidateDelete on the decoded old object; any other operation invokes
nothing.  The second component counts handler invocations. -/
def validatePhase {τ : Type} (hooks : ValidatingHooks τ) (op : Operation)
    (oldObj obj : τ) : Option String × Nat :=
  match op with
  | .create => (hooks.validateCreate obj, 1)
  | .update => (hooks.validateUpdate oldObj obj, 1)
  | .delete => (hooks.validateDelete oldObj, 1)
  | .connect => (none, 0)

/-- Embedding of the admit function built by NewValidatingWebhookHandler
(src/pkg/admission/webhook.go, lines 83-128), instrumented with the number
of handler methods invoked. -/
def validatingAdmit {β γ τ π : Type} (decoder : List β → GoResult String γ)
    (assertT : γ → Option τ) (defaultT : τ) (hooks : ValidatingHooks τ)
    (req : AdmissionRequest β) : AdmissionResponse π × Nat :=
  match decodePair decoder assertT defaultT req with
  | .error r => (r, 0)
  | .ok (obj, oldObj) =>
    match validatePhase hooks req.operation oldObj obj with
    | (some e, c) => (toAdmissionError 403 e, c)
    | (none, c) => (allowResponse, c)

/-- The two methods of a MutatingWebhook implementation; in-place mutation
of the object is modelled by returning the new object. -/
structure MutatingHooks (τ : Type) where
  mutateCreate : τ → GoResult String τ
  mutateUpdate : τ → τ → GoResult String τ

/-- The operation switch of the mutating adapter
(src/pkg/admission/webhook.go, lines 236-247): only Create and Update have
cases (there is deliberately no Delete case); any other operation leaves the
object untouched.  The second component counts handler invocations. -/
def mutatePhase {τ : Type} (hooks : MutatingHooks τ) (op : Operation)
    (oldObj obj : τ) : GoResult String τ × Nat :=
  match op with
  | .create => (hooks.mutateCreate obj, 1)
  | .update => (hooks.mutateUpdate oldObj obj, 1)
  | .delete => (.ok obj, 0)
  | .connect => (.ok obj, 0)

/-- Embedding of the admit function built by NewMutatingWebhookHandler
(src/pkg/admission/webhook.go, lines 213-270), instrumented with the number
of handler methods invoked.  `encode` models jsonEncode and `createPatch`
models jsonpatch.CreatePatch, diffing the request's original object bytes
against the re-encoded (possibly mutated) object. -/
def mutatingAdmit {β γ τ π : Type} (decoder : List β → GoResult String γ)
    (assertT : γ → Option τ) (defaultT : τ) (hooks : MutatingHooks τ)
    (encode : τ → List β) (createPatch : List β → List β → GoResult String (List π))
    (req : AdmissionRequest β) : AdmissionResponse π × Nat :=
  match decodePair decoder assertT defaultT req with
  | .error r => (r, 0)
  | .ok (obj, oldObj) =>
    match mutatePhase hooks req.operation oldObj obj with
    | (.error e, c) => (toAdmissionError 403 e, c)
    | (.ok obj2, c) =>
      match createPatch req.objectRaw (encode obj2) with
      | .error e => (toAdmissionError 500 ("error creating mutation patch: " ++ e), c)
      | .ok patches =>
        if 0 < patches.length then
          ({ uid := ""
             allowed := true
             result := none
             patchType := some .jsonPatch
             patch := some patches }, c)
        else (allowResponse, c)

/-- Embedding of the protocol envelope of an inbound request as far as
handleAdmission reads it (src/pkg/admission/webhook.go, lines 454-472). -/
structure AdmissionReviewRequest (β : Type) where
  apiVersion : String
  kind : String
  request : AdmissionRequest β

/-- Embedding of the protocol envelope of an outbound response. -/
structure AdmissionReviewResponse (π : Type) where
  apiVersion : String
  kind : String
  response : AdmissionResponse π

/-- Envelope step of handleAdmission (src/pkg/admission/webhook.go, lines
468-472): copy apiVersion and kind from the request envelope, call the
adapter's admit function, and overwrite the response's UID with the
request's UID. -/
def handleAdmissionReview {β π : Type}
    (admitFunc : AdmissionRequest β → AdmissionResponse π)
    (review : AdmissionReviewRequest β) : AdmissionReviewResponse π :=
  let resp := admitFunc review.request
  { apiVersion := review.apiVersion
    kind := review.kind
    response := { resp with uid := review.request.uid } }

/- ## Lemmas about the decode step of the adapters -/

/-- A raw payload on which the decode step of the adapters fails: the
payload is present and either the codec rejects it or the decoded value is
not assignable to the adapter's target type. -/
def decodeFails {β γ τ : Type} (decoder : List β → GoResult String γ)
    (assertT : γ → Option τ) (raw : List β) : Prop :=
  0 < raw.length ∧
    ((∃ e, decoder raw = .error e) ∨ ∃ g, decoder raw = .ok g ∧ assertT g = none)

/-- A failing payload makes `decodeField` return a 400 denial. -/
lemma decodeFails_decodeField_error {β γ τ π : Type} (decoder : List β → GoResult String γ)
    (assertT : γ → Option τ) (defaultT : τ) (raw : List β) (what : String)
    (h : decodeFails decoder assertT raw) :
    ∃ msg, decodeField (π := π) decoder assertT defaultT raw what =
      .error (toAdmissionError 400 msg) := by
  obtain ⟨hlen, hor⟩ := h
  unfold decodeField
  rw [if_pos hlen]
  rcases hor with ⟨e, he⟩ | ⟨g, hg, ha⟩
  · simp only [he]
    exact ⟨_, rfl⟩
  · simp only [hg, ha]
    exact ⟨_, rfl⟩

/-- A payload that does not fail makes `decodeField` succeed. -/
lemma decodeField_ok_of_not_fails {β γ τ π : Type} (decoder : List β → GoResult String γ)
    (assertT : γ → Option τ) (defaultT : τ) (raw : List β) (what : String)
    (hnf : ¬ decodeFails decoder assertT raw) :
    ∃ t, decodeField (π := π) decoder assertT defaultT raw what = .ok t := by
  unfold decodeField
  by_cases hlen : 0 < raw.length
  · rw [if_pos hlen]
    cases hdec : decoder raw with
    | error e => exact absurd ⟨hlen, Or.inl ⟨e, hdec⟩⟩ hnf
    | ok g =>
      cases hass : assertT g with
      | some t => exact ⟨t, by simp only [hass]⟩
      | none => exact absurd ⟨hlen, Or.inr ⟨g, hdec, hass⟩⟩ hnf
  · rw [if_neg hlen]
    exact ⟨defaultT, rfl⟩

/-- Every error produced by `decodeField` is a 400 denial. -/
lemma decodeField_error_shape {β γ τ π : Type} {decoder : List β → GoResult String γ}
    {assertT : γ → Option τ} {defaultT : τ} {raw : List β} {what : String}
    {r : AdmissionResponse π}
    (h : decodeField decoder assertT defaultT raw what = .error r) :
    ∃ msg, r = toAdmissionError 400 msg := by
  unfold decodeField at h
  by_cases hlen : 0 < raw.length
  · rw [if_pos hlen] at h
    cases hdec : decoder raw with
    | error e =>
      simp only [hdec, GoResult.error.injEq] at h
      exact ⟨_, h.symm⟩
    | ok g =>
      cases hass : assertT g with
      | some t =>
        simp only [hdec, hass] at h
        exact GoResult.noConfusion h
      | none =>
        simp only [hdec, hass, GoResult.error.injEq] at h
        exact ⟨_, h.symm⟩
  · rw [if_neg hlen] at h
    cases h

/-- Every error produced by `decodePair` is a 400 denial. -/
lemma decodePair_error_shape {β γ τ π : Type} {decoder : List β → GoResult String γ}
    {assertT : γ → Option τ} {defaultT : τ} {req : AdmissionRequest β}
    {r : AdmissionResponse π}
    (h : decodePair decoder assertT defaultT req = .error r) :
    ∃ msg, r = toAdmissionError 400 msg := by
  unfold decodePair at h
  cases h1 : decodeField (π := π) decoder assertT defaultT req.objectRaw ("object") with
  | error r1 =>
    simp only [h1, GoResult.error.injEq] at h
    obtain ⟨msg, hmsg⟩ := decodeField_error_shape h1
    exact ⟨msg, h ▸ hmsg⟩
  | ok obj =>
    cases h2 : decodeField (π := π) decoder assertT defaultT req.oldObjectRaw ("old object") with
    | error r2 =>
      simp only [h1, h2, GoResult.error.injEq] at h
      obtain ⟨msg, hmsg⟩ := decodeField_error_shape h2
      exact ⟨msg, h ▸ hmsg⟩
    | ok oldObj =>
      simp only [h1, h2] at h
      exact GoResult.noConfusion h

/- ## Claim C4 -/

/-- Claim C4: for every admission request whose embedded object (or
old-object) payload fails to decode, or decodes to a value not assignable to
the adapter's target type, both adapters reject the request with status code
400 (carried, per the protocol's convention, inside the admission response
produced for the envelope) and allowed = false, and no handler method is
invoked (the invocation counter is 0). -/
theorem claim4_decode_failure_rejects {β γ τ π : Type} (decoder : List β → GoResult String γ)
    (assertT : γ → Option τ) (defaultT : τ) (vhooks : ValidatingHooks τ)
    (mhooks : MutatingHooks τ) (encode : τ → List β)
    (createPatch : List β → List β → GoResult String (List π)) (req : AdmissionRequest β)
    (h : decodeFails decoder assertT req.objectRaw ∨
      decodeFails decoder assertT req.oldObjectRaw) :
    ∃ r : AdmissionResponse π,
      validatingAdmit decoder assertT defaultT vhooks req = (r, 0) ∧
      mutatingAdmit decoder assertT defaultT mhooks encode createPatch req = (r, 0) ∧
      r.allowed = false ∧ ∃ st, r.result = some st ∧ st.code = 400 := by
  by_cases hobj : decodeFails decoder assertT req.objectRaw
  · obtain ⟨msg, hf⟩ := decodeFails_decodeField_error (π := π) decoder assertT defaultT
      req.objectRaw ("object") hobj
    refine ⟨toAdmissionError 400 msg, ?_, ?_, rfl, ⟨_, rfl, rfl⟩⟩
    · simp only [validatingAdmit, decodePair, hf]
    · simp only [mutatingAdmit, decodePair, hf]
  · have hold := h.resolve_left hobj
    obtain ⟨t, ht⟩ := decodeField_ok_of_not_fails (π := π) decoder assertT defaultT
      req.objectRaw ("object") hobj
    obtain ⟨msg, hf⟩ := decodeFails_decodeField_error (π := π) decoder assertT defaultT
      req.oldObjectRaw ("old object") hold
    refine ⟨toAdmissionError 400 msg, ?_, ?_, rfl, ⟨_, rfl, rfl⟩⟩
    · simp only [validatingAdmit, decodePair, ht, hf]
    · simp only [mutatingAdmit, decodePair, ht, hf]

/-- Error message of the concrete rejecting codec. -/
def decodeErrMsg : String := "parse failure"

/-- Concrete codec that rejects every payload. -/
def badDecoder : List Nat → GoResult String Nat := fun _ => .error decodeErrMsg

/-- Concrete codec that decodes a payload to its first byte. -/
def okDecoder : List Nat → GoResult String Nat := fun raw => .ok (raw.headD 0)

/-- Concrete validating webhook that accepts everything. -/
def vNoHooks : ValidatingHooks Nat :=
  { validateCreate := fun _ => none
    validateUpdate := fun _ _ => none
    validateDelete := fun _ => none }

/-- Concrete mutating webhook that never changes the object. -/
def mIdHooks : MutatingHooks Nat :=
  { mutateCreate := fun x => .ok x
    mutateUpdate := fun _ x => .ok x }

/-- Concrete encoder. -/
def encodeNat : Nat → List Nat := fun x => [x]

/-- Concrete patch generator that always produces an empty edit script. -/
def patchEmpty : List Nat → List Nat → GoResult String (List Nat) := fun _ _ => .ok []

/-- Error message of jsonpatch.CreatePatch on an empty original document. -/
def jsonEmptyMsg : String := "unexpected end of JSON input"

/-- Concrete patch generator that, like jsonpatch.CreatePatch, fails when
the original document is empty. -/
def patchFailEmpty : List Nat → List Nat → GoResult String (List Nat) :=
  fun a _ => if a.length = 0 then .error jsonEmptyMsg else .ok []

/-- Concrete request whose object payload is present but undecodable by
`badDecoder`. -/
def reqBadObject : AdmissionRequest Nat :=
  { uid := "uid-1", operation := .create, objectRaw := [1], oldObjectRaw := [] }

/-- Concrete create request with a decodable object payload. -/
def reqCreateOk : AdmissionRequest Nat :=
  { uid := "uid-2", operation := .create, objectRaw := [7], oldObjectRaw := [] }

/-- Concrete delete request: old-object payload present, object payload
absent. -/
def reqDelete : AdmissionRequest Nat :=
  { uid := "uid-3", operation := .delete, objectRaw := [], oldObjectRaw := [2] }

/-- Witness for claim C4: the concrete rejecting codec on a request with a
present object payload. -/
theorem claim4_decode_failure_rejects_witness :
    ∃ r : AdmissionResponse Nat,
      validatingAdmit badDecoder (fun g => some g) 0 vNoHooks reqBadObject = (r, 0) ∧
      mutatingAdmit badDecoder (fun g => some g) 0 mIdHooks encodeNat patchEmpty
        reqBadObject = (r, 0) ∧
      r.allowed = false ∧ ∃ st, r.result = some st ∧ st.code = 400 :=
  claim4_decode_failure_rejects badDecoder (fun g => some g) 0 vNoHooks mIdHooks
    encodeNat patchEmpty reqBadObject (Or.inl ⟨by decide, Or.inl ⟨decodeErrMsg, rfl⟩⟩)

/- ## Claim C6 -/

/-- Well-formedness of an adapter response, as claimed by the spec: either
an allow (whose patch and patch type are present or absent together), or a
denial carrying a populated status (a nonzero code with its standard reason
text) and no patch. -/
def wellFormedResponse {π : Type} (r : AdmissionResponse π) : Prop :=
  (r.allowed = true ∧ (r.patch.isSome ↔ r.patchType.isSome)) ∨
  (r.allowed = false ∧ r.patch = none ∧ r.patchType = none ∧
    ∃ st, r.result = some st ∧ st.code ≠ 0 ∧ st.reason = statusText st.code)

/-- Every `toAdmissionError` response with a nonzero code is well formed. -/
lemma wellFormed_toAdmissionError {π : Type} (code : Int) (err : String)
    (hcode : code ≠ 0) : wellFormedResponse (toAdmissionError (π := π) code err) :=
  Or.inr ⟨rfl, rfl, rfl, ⟨_, rfl, hcode, rfl⟩⟩

/-- The bare allow response is well formed. -/
lemma wellFormed_allow {π : Type} : wellFormedResponse (allowResponse (π := π)) :=
  Or.inl ⟨rfl, by simp [allowResponse]⟩

/-- Claim C6: for every admission request processed by a handler adapter's
admit function (validating or mutating, any operation, any
decode/handler/patch outcome), the returned response either has
allowed = true (possibly carrying a patch) or has allowed = false together
with a populated status; no other shape is ever returned. -/
theorem claim6_response_well_formed {β γ τ π : Type} (decoder : List β → GoResult String γ)
    (assertT : γ → Option τ) (defaultT : τ) (vhooks : ValidatingHooks τ)
    (mhooks : MutatingHooks τ) (encode : τ → List β)
    (createPatch : List β → List β → GoResult String (List π)) (req : AdmissionRequest β) :
    wellFormedResponse (validatingAdmit (π := π) decoder assertT defaultT vhooks req).1 ∧
    wellFormedResponse
      (mutatingAdmit decoder assertT defaultT mhooks encode createPatch req).1 := by
  constructor
  · rcases hdp : decodePair (π := π) decoder assertT defaultT req with r | ⟨obj, oldObj⟩
    · obtain ⟨msg, hr⟩ := decodePair_error_shape hdp
      simp only [validatingAdmit, hdp, hr]
      exact wellFormed_toAdmissionError 400 msg (by decide)
    · rcases hvp : validatePhase vhooks req.operation oldObj obj with ⟨_ | e, c⟩
      · simp only [validatingAdmit, hdp, hvp]
        exact wellFormed_allow
      · simp only [validatingAdmit, hdp, hvp]
        exact wellFormed_toAdmissionError 403 e (by decide)
  · rcases hdp : decodePair (π := π) decoder assertT defaultT req with r | ⟨obj, oldObj⟩
    · obtain ⟨msg, hr⟩ := decodePair_error_shape hdp
      simp only [mutatingAdmit, hdp, hr]
      exact wellFormed_toAdmissionError 400 msg (by decide)
    · rcases hmp : mutatePhase mhooks req.operation oldObj obj with ⟨e | obj2, c⟩
      · simp only [mutatingAdmit, hdp, hmp]
        exact wellFormed_toAdmissionError 403 e (by decide)
      · rcases hcp : createPatch req.objectRaw (encode obj2) with e | patches
        · simp only [mutatingAdmit, hdp, hmp, hcp]
          exact wellFormed_toAdmissionError 500 ("error creating mutation patch: " ++ e)
            (by decide)
        · by_cases hlen : 0 < patches.length
          · simp only [mutatingAdmit, hdp, hmp, hcp, if_pos hlen]
            exact Or.inl ⟨rfl, by simp⟩
          · simp only [mutatingAdmit, hdp, hmp, hcp, if_neg hlen]
            exact wellFormed_allow

/- ## Claim C7 -/

/-- Claim C7: for every admission request for which the server produces a
protocol response envelope, the response's correlation identifier (UID)
equals the request's UID.  The statement quantifies over the adapter's admit
function, so it covers every error path that flows through it (decode
failure denial, handler denial, convergence failure of a composite chain). -/
theorem claim7_uid_echo {β π : Type} :
    ∀ (admitFunc : AdmissionRequest β → AdmissionResponse π)
      (review : AdmissionReviewRequest β),
      (handleAdmissionReview admitFunc review).response.uid = review.request.uid :=
  fun _ _ => rfl

/- ## Claim C8 -/

/-- Claim C8: for every mutation request in which the handlers leave the
decoded object unchanged and the resulting edit script against the original
payload is empty, the adapter's response is the bare allow: allowed = true
with the patch and patch-type fields absent. -/
theorem claim8_noop_mutation_bare_allow {β γ τ π : Type}
    (decoder : List β → GoResult String γ) (assertT : γ → Option τ) (defaultT : τ)
    (mhooks : MutatingHooks τ) (encode : τ → List β)
    (createPatch : List β → List β → GoResult String (List π)) (req : AdmissionRequest β)
    (obj oldObj : τ) (c : Nat)
    (hd : decodePair (π := π) decoder assertT defaultT req = .ok (obj, oldObj))
    (hm : mutatePhase mhooks req.operation oldObj obj = (.ok obj, c))
    (hp : createPatch req.objectRaw (encode obj) = .ok ([] : List π)) :
    mutatingAdmit decoder assertT defaultT mhooks encode createPatch req =
      (allowResponse, c) ∧
    (allowResponse : AdmissionResponse π).allowed = true ∧
    (allowResponse : AdmissionResponse π).patch = none ∧
    (allowResponse : AdmissionResponse π).patchType = none := by
  refine ⟨?_, rfl, rfl, rfl⟩
  simp only [mutatingAdmit, hd, hm, hp, List.length_nil, lt_irrefl, if_neg, ite_false]

/-- Witness for claim C8: the identity mutating webhook on a concrete
create request, with a patch generator returning the empty edit script. -/
theorem claim8_noop_mutation_bare_allow_witness :
    mutatingAdmit okDecoder (fun g => some g) 0 mIdHooks encodeNat patchEmpty
      reqCreateOk = (allowResponse, 1) ∧
    (allowResponse : AdmissionResponse Nat).allowed = true ∧
    (allowResponse : AdmissionResponse Nat).patch = none ∧
    (allowResponse : AdmissionResponse Nat).patchType = none :=
  claim8_noop_mutation_bare_allow okDecoder (fun g => some g) 0 mIdHooks encodeNat
    patchEmpty reqCreateOk 7 0 1 rfl rfl rfl

/- ## Claim C10 -/

/-- Claim C10: for every admission request with operation Delete dispatched
to a mutating adapter, no mutation method is invoked (the operation switch
has no Delete case, so the invocation counter stays 0); because the request
carries no object payload, the patch computation runs on the empty original
bytes, and when it fails (as jsonpatch.CreatePatch does on an empty JSON
document) the response is a denial with status code 500 rather than an
allow. -/
theorem claim10_delete_mutation_500 {β γ τ π : Type}
    (decoder : List β → GoResult String γ) (assertT : γ → Option τ) (defaultT : τ)
    (mhooks : MutatingHooks τ) (encode : τ → List β)
    (createPatch : List β → List β → GoResult String (List π)) (req : AdmissionRequest β)
    (oldObj : τ) (e : String)
    (h1 : req.operation = .delete)
    (h2 : req.objectRaw = ([] : List β))
    (h3 : decodeField (π := π) decoder assertT defaultT req.oldObjectRaw ("old object") =
      .ok oldObj)
    (h4 : createPatch ([] : List β) (encode defaultT) = .error e) :
    mutatingAdmit decoder assertT defaultT mhooks encode createPatch req =
      (toAdmissionError 500 ("error creating mutation patch: " ++ e), 0) ∧
    (toAdmissionError (π := π) 500 ("error creating mutation patch: " ++ e)).allowed
      = false ∧
    ∃ st, (toAdmissionError (π := π) 500
      ("error creating mutation patch: " ++ e)).result = some st ∧ st.code = 500 := by
  have hobj : decodeField (π := π) decoder assertT defaultT ([] : List β) ("object") =
      .ok defaultT := rfl
  refine ⟨?_, rfl, ⟨_, rfl, rfl⟩⟩
  simp only [mutatingAdmit, decodePair, h1, h2, hobj, h3, mutatePhase, h4]

/-- Witness for claim C10: a concrete delete request with an empty object
payload, dispatched to the identity mutating webhook with a patch generator
that fails on the empty original document. -/
theorem claim10_delete_mutation_500_witness :
    mutatingAdmit okDecoder (fun g => some g) 0 mIdHooks encodeNat patchFailEmpty
      reqDelete = (toAdmissionError 500 ("error creating mutation patch: " ++ jsonEmptyMsg), 0) ∧
    (toAdmissionError (π := Nat) 500
      ("error creating mutation patch: " ++ jsonEmptyMsg)).allowed = false ∧
    ∃ st, (toAdmissionError (π := Nat) 500
      ("error creating mutation patch: " ++ jsonEmptyMsg)).result = some st ∧
      st.code = 500 :=
  claim10_delete_mutation_500 okDecoder (fun g => some g) 0 mIdHooks encodeNat
    patchFailEmpty reqDelete 2 jsonEmptyMsg rfl rfl rfl rfl

/- ## Webhook registration
(RegisterValidatingWebhookWithRouter / RegisterMutatingWebhookWithRouter in
src/pkg/admission/webhook.go).

The reflective inspection of the type parameter T is modelled by a
`TypeShape` describing its outcome, and the scheme's `ObjectKinds` lookup
(the external type-identity resolver) by its result value.  Registration
returns the list of paths registered with the router, or the error that
aborts it. -/

/-- Resource identity (group/version/kind triple). -/
structure GVK where
  group : String
  version : String
  kind : String
deriving DecidableEq

/-- Outcome of the reflective inspection of the type parameter T performed
at registration: a nil/interface type, a pointer to
unstructured.Unstructured, a pointer to a concrete struct type, or any
other kind. -/
inductive TypeShape where
  | interfaceType
  | ptrUnstructured
  | ptrConcrete
  | otherKind
deriving DecidableEq

/-- The scheme as consumed at registration: the result of
`scheme.ObjectKinds(obj)`, i.e. the resolved identities together with the
unversioned flag, or a lookup error. -/
structure SchemeInfo where
  objectKinds : GoResult String (List GVK × Bool)

/-- Model of Go's strings.ToLower on one character, restricted to ASCII
(all characters the registration paths use). -/
def lowerChar (c : Char) : Char :=
  if 'A' ≤ c ∧ c ≤ 'Z' then Char.ofNat (c.toNat + 32) else c

/-- Model of Go's strings.ToLower, restricted to ASCII. -/
def lowerStr (s : String) : String :=
  ⟨s.data.map lowerChar⟩

/-- Path construction of the registration loops
(src/pkg/admission/webhook.go, lines 171-175 and 313-317): replace an empty
group by core, then join the lowercased group, version and kind with the
operation suffix. -/
def webhookPath (gvk : GVK) (suffix : String) : String :=
  let group := if gvk.group = "" then "core" else gvk.group
  "/" ++ lowerStr group ++ "/" ++ lowerStr gvk.version ++ "/" ++ lowerStr gvk.kind ++
    "/" ++ suffix

/-- Embedding of RegisterValidatingWebhookWithRouter
(src/pkg/admission/webhook.go, lines 139-185): nil/interface types and
pointers to unstructured.Unstructured register the fixed generic path;
concrete pointer types require a scheme, look up the resolved identities,
reject unversioned types, and register one path per resolved identity;
any other type kind is an error.  The result is the list of registered
paths. -/
def RegisterValidatingWebhookWithRouter (shape : TypeShape) (scheme : Option SchemeInfo) :
    GoResult String (List String) :=
  match shape with
  | .interfaceType => .ok [ "/generic/validate" ]
  | .ptrUnstructured => .ok [ "/generic/validate" ]
  | .ptrConcrete =>
    match scheme with
    | none => .error ("encountering empty/missing scheme")
    | some s =>
      match s.objectKinds with
      | .error e => .error ("error fetching scheme information for type: " ++ e)
      | .ok (gvks, unversioned) =>
        if unversioned then
          .error ("encountering unversioned object type; unversioned types are not supported")
        else .ok (gvks.map fun gvk => webhookPath gvk ("validate"))
  | .otherKind => .error ("encountering unsupported object kind")

/-- Embedding of RegisterMutatingWebhookWithRouter
(src/pkg/admission/webhook.go, lines 281-327); identical to the validating
variant except for the path suffix. -/
def RegisterMutatingWebhookWithRouter (shape : TypeShape) (scheme : Option SchemeInfo) :
    GoResult String (List String) :=
  match shape with
  | .interfaceType => .ok [ "/generic/mutate" ]
  | .ptrUnstructured => .ok [ "/generic/mutate" ]
  | .ptrConcrete =>
    match scheme with
    | none => .error ("encountering empty/missing scheme")
    | some s =>
      match s.objectKinds with
      | .error e => .error ("error fetching scheme information for type: " ++ e)
      | .ok (gvks, unversioned) =>
        if unversioned then
          .error ("encountering unversioned object type; unversioned types are not supported")
        else .ok (gvks.map fun gvk => webhookPath gvk ("mutate"))
  | .otherKind => .error ("encountering unsupported object kind")

/-- Concrete resolved identity in group apps. -/
def gvkDeployment : GVK := { group := "apps", version := "v1", kind := "Deployment" }

/-- Concrete resolved identity in group batch. -/
def gvkJob : GVK := { group := "batch", version := "v1", kind := "Job" }

/-- Concrete resolved identity with an empty group. -/
def gvkConfigMap : GVK := { group := "", version := "v1", kind := "ConfigMap" }

/- ## Claim C5 -/

/-- Claim C5 as stated is false at concrete inputs: a concrete-type
registration whose identity lookup resolves to two identities does not fail
with an error — it succeeds and registers one path per identity; and a
lookup resolving to zero identities (with no lookup error) also succeeds,
registering nothing. -/
theorem claim5_counterexample :
    RegisterValidatingWebhookWithRouter .ptrConcrete
        (some { objectKinds := .ok ([gvkDeployment, gvkJob], false) }) =
      .ok [ "/apps/v1/deployment/validate", "/batch/v1/job/validate" ] ∧
    RegisterMutatingWebhookWithRouter .ptrConcrete
        (some { objectKinds := .ok ([], false) }) = .ok [] := by
  decide

/-- Claim C5 (amended): a concrete-type registration fails with an error
exactly when the scheme is missing, when the identity lookup itself errors
(in particular for types the scheme does not know, the usual source of
"zero identities"), or when the resolved identity is unversioned; when the
lookup succeeds with the unversioned flag unset, registration succeeds and
registers one path per resolved identity — zero identities register
nothing and several identities register several paths, neither being an
error. -/
theorem claim5_registration_error_conditions (e : String) (gvks : List GVK) :
    (RegisterValidatingWebhookWithRouter .ptrConcrete none =
      .error ("encountering empty/missing scheme")) ∧
    (RegisterValidatingWebhookWithRouter .ptrConcrete (some { objectKinds := .error e }) =
      .error ("error fetching scheme information for type: " ++ e)) ∧
    (RegisterValidatingWebhookWithRouter .ptrConcrete
        (some { objectKinds := .ok (gvks, true) }) =
      .error ("encountering unversioned object type; unversioned types are not supported")) ∧
    (RegisterValidatingWebhookWithRouter .ptrConcrete
        (some { objectKinds := .ok (gvks, false) }) =
      .ok (gvks.map fun gvk => webhookPath gvk ("validate"))) ∧
    (RegisterMutatingWebhookWithRouter .ptrConcrete none =
      .error ("encountering empty/missing scheme")) ∧
    (RegisterMutatingWebhookWithRouter .ptrConcrete (some { objectKinds := .error e }) =
      .error ("error fetching scheme information for type: " ++ e)) ∧
    (RegisterMutatingWebhookWithRouter .ptrConcrete
        (some { objectKinds := .ok (gvks, true) }) =
      .error ("encountering unversioned object type; unversioned types are not supported")) ∧
    (RegisterMutatingWebhookWithRouter .ptrConcrete
        (some { objectKinds := .ok (gvks, false) }) =
      .ok (gvks.map fun gvk => webhookPath gvk ("mutate"))) :=
  ⟨rfl, rfl, rfl, rfl, rfl, rfl, rfl, rfl⟩

/- ## Claim C9 -/

/-- Claim C9: for every concrete-type registration, the registered path is
the slash-joined lowercased group, version and kind followed by the
operation suffix, with an empty API group replaced by core; in particular a
resource with empty group, kind ConfigMap, version v1 registered for
mutation resolves to the path /core/v1/configmap/mutate. -/
theorem claim9_path_construction :
    ∀ gvk : GVK,
      (RegisterMutatingWebhookWithRouter .ptrConcrete
          (some { objectKinds := .ok ([gvk], false) }) =
        .ok [ "/" ++ lowerStr (if gvk.group = "" then "core" else gvk.group) ++ "/" ++
          lowerStr gvk.version ++ "/" ++ lowerStr gvk.kind ++ "/" ++ "mutate" ]) ∧
      (RegisterValidatingWebhookWithRouter .ptrConcrete
          (some { objectKinds := .ok ([gvk], false) }) =
        .ok [ "/" ++ lowerStr (if gvk.group = "" then "core" else gvk.group) ++ "/" ++
          lowerStr gvk.version ++ "/" ++ lowerStr gvk.kind ++ "/" ++ "validate" ]) ∧
      (RegisterMutatingWebhookWithRouter .ptrConcrete
          (some { objectKinds := .ok ([gvkConfigMap], false) }) =
        .ok [ "/core/v1/configmap/mutate" ]) := by
  intro gvk
  exact ⟨rfl, rfl, by decide⟩
